import Mathlib

/-!
Verification development for the Amazon Comprehend NLP / Medical plugin.

The definitions below are a shallow embedding of the plugin's Python source:

* `src/python-lib/amazon_comprehend_medical_api_formatting.py`
  (`MedicalEntityTypeEnum`, `MedicalPHITypeEnum`, `MedicalPhiAPIFormatter`,
  `MedicalEntityAPIFormatter`);
* `src/python-lib/api_formatting.py`
  (`EntityTypeEnum`, `SentimentAnalysisAPIFormatter`,
  `NamedEntityRecognitionAPIFormatter`, `KeyPhraseExtractionAPIFormatter`);
* the two medical recipes
  (`call_api_medical_entity_recognition`, `call_api_medical_phi_extraction`,
  the `minimum_score` validation and the retry decorators).

Helpers that live outside the repository snapshot (`plugin_io_utils.py`,
`api_parallelizer.py`, the `retry` library) are modelled from the
specification; each such definition carries a doc comment starting with
`Modelled from the spec:`.

Confidence scores are embedded as rationals (`ℚ`): the claims under
scrutiny concern comparison and filtering logic, not floating-point
rounding of the binary representation.
-/

/-- Error-handling policy enumeration (`ErrorHandlingEnum` with members
`LOG` and `FAIL`), as used by every formatter constructor. -/
inductive ErrorHandlingEnum
| LOG
| FAIL
deriving DecidableEq, Repr

/-- A raw response payload as stored in the dispatcher's response column.
`empty` stands for the empty string (a blank-text short-circuit), `invalid`
for a non-JSON string, `valid a` for the JSON serialization of the parsed
object `a` (`json.dumps`). -/
inductive RawPayload (α : Type)
| empty
| invalid
| valid (a : α)
deriving DecidableEq, Repr

/-- Modelled from the spec: `safe_json_loads` (Response Parser, spec §4.2,
`plugin_io_utils.py` is not in the snapshot). On valid JSON it returns the
decoded structure; on invalid JSON or null/empty input it raises a parse
error under the `FAIL` policy and returns the empty object (here:
`emptyObj`) under the `LOG` policy. -/
def safe_json_loads {α : Type} (emptyObj : α) (raw : RawPayload α)
    (error_handling : ErrorHandlingEnum) : Except String α :=
  match raw with
  | .valid a => .ok a
  | .empty =>
    match error_handling with
    | .LOG => .ok emptyObj
    | .FAIL => .error "JSONDecodeError"
  | .invalid =>
    match error_handling with
    | .LOG => .ok emptyObj
    | .FAIL => .error "JSONDecodeError"

/-- A cell value of an output column: either a plain string (the empty-list
normalization writes `""`), a list of entity texts, or a list of optional
entity texts (the named-entity formatter reads `e.get("Text")` without a
default, so `None` entries are possible there). -/
inductive CellValue
| str (s : String)
| strList (l : List String)
| optStrList (l : List (Option String))
deriving DecidableEq, Repr

/-- Enumeration `MedicalEntityTypeEnum` from `amazon_comprehend_medical_api_formatting.py`,
in Python definition order. -/
inductive MedicalEntityTypeEnum
| ANATOMY
| MEDICAL_CONDITION
| MEDICATION
| PROTECTED_HEALTH_INFORMATION
| TEST_TREATMENT_PROCEDURE
| TIME_EXPRESSION
deriving DecidableEq, Repr

/-- Enumeration `MedicalPHITypeEnum` from `amazon_comprehend_medical_api_formatting.py`,
in Python definition order. -/
inductive MedicalPHITypeEnum
| ADDRESS
| AGE
| DATE
| NAME
| PHONE_OR_FAX
| EMAIL
| ID
deriving DecidableEq, Repr

/-- Python `Enum.name` for `MedicalEntityTypeEnum`. -/
def MedicalEntityTypeEnum.name : MedicalEntityTypeEnum → String
| .ANATOMY => "ANATOMY"
| .MEDICAL_CONDITION => "MEDICAL_CONDITION"
| .MEDICATION => "MEDICATION"
| .PROTECTED_HEALTH_INFORMATION => "PROTECTED_HEALTH_INFORMATION"
| .TEST_TREATMENT_PROCEDURE => "TEST_TREATMENT_PROCEDURE"
| .TIME_EXPRESSION => "TIME_EXPRESSION"

/-- Python `Enum.value` for `MedicalEntityTypeEnum`. -/
def MedicalEntityTypeEnum.value : MedicalEntityTypeEnum → String
| .ANATOMY => "Anatomy"
| .MEDICAL_CONDITION => "Medical condition"
| .MEDICATION => "Medication"
| .PROTECTED_HEALTH_INFORMATION => "Protected health information"
| .TEST_TREATMENT_PROCEDURE => "Test treatment procedure"
| .TIME_EXPRESSION => "Time expression"

/-- Iteration order of `for e in MedicalEntityTypeEnum` (definition order). -/
def MedicalEntityTypeEnum.members : List MedicalEntityTypeEnum :=
  [.ANATOMY, .MEDICAL_CONDITION, .MEDICATION, .PROTECTED_HEALTH_INFORMATION,
   .TEST_TREATMENT_PROCEDURE, .TIME_EXPRESSION]

/-- Python `Enum.name` for `MedicalPHITypeEnum`. -/
def MedicalPHITypeEnum.name : MedicalPHITypeEnum → String
| .ADDRESS => "ADDRESS"
| .AGE => "AGE"
| .DATE => "DATE"
| .NAME => "NAME"
| .PHONE_OR_FAX => "PHONE_OR_FAX"
| .EMAIL => "EMAIL"
| .ID => "ID"

/-- Python `Enum.value` for `MedicalPHITypeEnum`. -/
def MedicalPHITypeEnum.value : MedicalPHITypeEnum → String
| .ADDRESS => "Address"
| .AGE => "Age"
| .DATE => "Date"
| .NAME => "Name"
| .PHONE_OR_FAX => "Phone or fax"
| .EMAIL => "Email"
| .ID => "ID"

/-- Iteration order of `for e in MedicalPHITypeEnum` (definition order). -/
def MedicalPHITypeEnum.members : List MedicalPHITypeEnum :=
  [.ADDRESS, .AGE, .DATE, .NAME, .PHONE_OR_FAX, .EMAIL, .ID]

/-- The list `[e.name for e in MedicalEntityTypeEnum]` used in both
formatters' `discarded_entities` comprehensions. -/
def medicalEntityTypeNames : List String :=
  MedicalEntityTypeEnum.members.map MedicalEntityTypeEnum.name

/-- One entity record of a parsed Comprehend Medical response.  Fields are
optional, mirroring `e.get(key, default)` access in the Python source. -/
structure Entity where
  typeField : Option String
  category : Option String
  text : Option String
  score : Option ℚ
deriving DecidableEq, Repr

/-- Python `e.get("Type", "")`. -/
def Entity.typeD (e : Entity) : String := e.typeField.getD ""

/-- Python `e.get("Category", "")`. -/
def Entity.categoryD (e : Entity) : String := e.category.getD ""

/-- Python `float(e.get("Score", 0))`. -/
def Entity.scoreD (e : Entity) : ℚ := e.score.getD 0

/-- A parsed Comprehend Medical response body: `response.get("Entities", [])`
reads the optional `Entities` list. -/
structure EntitiesResponse where
  entities : Option (List Entity)
deriving DecidableEq, Repr

/-- The empty JSON object `{}` (what `safe_json_loads` yields under `LOG`
for empty/invalid input): no `Entities` key. -/
def EntitiesResponse.emptyObj : EntitiesResponse := ⟨none⟩

/-- The row fragment produced by `MedicalPhiAPIFormatter.format_row`:
one cell per `MedicalPHITypeEnum` member, plus the count of discarded
entities reported through `logging.info` for observability. -/
structure PhiFormattedRow where
  cells : MedicalPHITypeEnum → CellValue
  discardedCount : Nat

/-- Embedding of `MedicalPhiAPIFormatter.format_row`, lines 110-133 of
`amazon_comprehend_medical_api_formatting.py`: parse the raw response,
count entities below `minimum_score` whose `Type` is among the
`MedicalEntityTypeEnum` *names* (the comprehension in the source), then
for each `MedicalPHITypeEnum` member emit the list of texts of entities
whose `Type` equals the member's name and whose score is at least
`minimum_score`, normalizing an empty list to `""`. -/
def MedicalPhiAPIFormatter.format_row (minimum_score : ℚ)
    (error_handling : ErrorHandlingEnum)
    (raw : RawPayload EntitiesResponse) : Except String PhiFormattedRow := do
  let response ← safe_json_loads EntitiesResponse.emptyObj raw error_handling
  let entities := response.entities.getD []
  let discarded_entities := entities.filter fun e =>
    decide (e.scoreD < minimum_score) && medicalEntityTypeNames.contains e.typeD
  return { cells := fun entity_enum =>
             let texts := (entities.filter fun e =>
               e.typeD == entity_enum.name && decide (minimum_score ≤ e.scoreD)).map
               fun e => e.text.getD ""
             if texts = [] then .str "" else .strList texts
           discardedCount := discarded_entities.length }

/-- The row fragment produced by `MedicalEntityAPIFormatter.format_row`:
cells only for the selected entity types (`none` = column not produced),
plus the discarded-entity count reported through `logging.info`. -/
structure MedFormattedRow where
  cells : MedicalEntityTypeEnum → Option CellValue
  discardedCount : Nat

/-- Embedding of `MedicalEntityAPIFormatter.format_row`, lines 166-190 of
`amazon_comprehend_medical_api_formatting.py`: parse the raw response,
count entities below `minimum_score` whose `Category` is among the
`MedicalEntityTypeEnum` names, then for each *selected* entity type emit
the list of texts of entities whose `Category` equals the member's name
and whose score is at least `minimum_score`, normalizing an empty list
to `""`; unselected types produce no cell. -/
def MedicalEntityAPIFormatter.format_row (entity_types : List MedicalEntityTypeEnum)
    (minimum_score : ℚ) (error_handling : ErrorHandlingEnum)
    (raw : RawPayload EntitiesResponse) : Except String MedFormattedRow := do
  let response ← safe_json_loads EntitiesResponse.emptyObj raw error_handling
  let entities := response.entities.getD []
  let discarded_entities := entities.filter fun e =>
    decide (e.scoreD < minimum_score) && medicalEntityTypeNames.contains e.categoryD
  return { cells := fun entity_enum =>
             if entity_types.contains entity_enum then
               let texts := (entities.filter fun e =>
                 e.categoryD == entity_enum.name && decide (minimum_score ≤ e.scoreD)).map
                 fun e => e.text.getD ""
               some (if texts = [] then .str "" else .strList texts)
             else none
           discardedCount := discarded_entities.length }

/-- Enumeration `EntityTypeEnum` from `api_formatting.py`, in Python definition order. -/
inductive EntityTypeEnum
| COMMERCIAL_ITEM
| DATE
| EVENT
| LOCATION
| ORGANIZATION
| OTHER
| PERSON
| QUANTITY
| TITLE
deriving DecidableEq, Repr

/-- Python `Enum.name` for `EntityTypeEnum`. -/
def EntityTypeEnum.name : EntityTypeEnum → String
| .COMMERCIAL_ITEM => "COMMERCIAL_ITEM"
| .DATE => "DATE"
| .EVENT => "EVENT"
| .LOCATION => "LOCATION"
| .ORGANIZATION => "ORGANIZATION"
| .OTHER => "OTHER"
| .PERSON => "PERSON"
| .QUANTITY => "QUANTITY"
| .TITLE => "TITLE"

/-- The row fragment produced by `NamedEntityRecognitionAPIFormatter.format_row`:
cells only for the selected entity types (`none` = column not produced). -/
structure NERFormattedRow where
  cells : EntityTypeEnum → Option CellValue

/-- Embedding of `NamedEntityRecognitionAPIFormatter.format_row`, lines 222-236 of
`api_formatting.py`: parse the raw response; for each selected entity type
(the `sorted` over selected names only affects column order) emit the list
`[e.get("Text") for e in entities if e.get("Type", "") == n]` — note the
missing default on `Text`, so entries may be `None` — normalizing an empty
list to `""`.  There is no score filtering in this formatter. -/
def NamedEntityRecognitionAPIFormatter.format_row (entity_types : List EntityTypeEnum)
    (error_handling : ErrorHandlingEnum)
    (raw : RawPayload EntitiesResponse) : Except String NERFormattedRow := do
  let response ← safe_json_loads EntitiesResponse.emptyObj raw error_handling
  let entities := response.entities.getD []
  return { cells := fun entity_enum =>
             if entity_types.contains entity_enum then
               let texts := (entities.filter fun e =>
                 e.typeD == entity_enum.name).map fun e => e.text
               some (if texts = [] then .str "" else .optStrList texts)
             else none }

/-- Round half to even at integer precision (Python `round` tie-breaking). -/
def roundHalfEven (q : ℚ) : ℤ :=
  if Int.fract q < 1/2 then ⌊q⌋
  else if 1/2 < Int.fract q then ⌊q⌋ + 1
  else if ⌊q⌋ % 2 = 0 then ⌊q⌋ else ⌊q⌋ + 1

/-- Python `round(score, 3)`: round to 3 decimal places, ties to even. -/
def pythonRound3 (q : ℚ) : ℚ := (roundHalfEven (q * 1000) : ℚ) / 1000

/-- The iteration order of `self.sentiment_score_column_dict`
(`["Positive", "Neutral", "Negative", "Mixed"]`, insertion order of the
dict comprehension in `SentimentAnalysisAPIFormatter.__init__`). -/
def sentimentPredictions : List String := ["Positive", "Neutral", "Negative", "Mixed"]

/-- A parsed sentiment response: optional `Sentiment` label and optional
`SentimentScore` object, the latter a JSON mapping embedded as an
association list (`sentiment_score.get(prediction)` is a lookup). -/
structure SentimentResponse where
  sentiment : Option String
  sentimentScore : Option (List (String × ℚ))
deriving DecidableEq, Repr

/-- The empty JSON object as a sentiment response. -/
def SentimentResponse.emptyObj : SentimentResponse := ⟨none, none⟩

/-- The row fragment produced by `SentimentAnalysisAPIFormatter.format_row`:
the prediction cell and the score cells, keyed by prediction name, in
`sentiment_score_column_dict` order. -/
structure SentimentFormattedRow where
  prediction : String
  scoreCells : List (String × Option ℚ)
deriving DecidableEq, Repr

/-- Embedding of `SentimentAnalysisAPIFormatter.format_row`, lines 166-176 of
`api_formatting.py`: parse the raw response, emit
`response.get("Sentiment", "")` as the prediction cell and, for each of the
four predictions in the column dict, `None` when the score is absent from
`response.get("SentimentScore", {})` and `round(score, 3)` when present. -/
def SentimentAnalysisAPIFormatter.format_row (error_handling : ErrorHandlingEnum)
    (raw : RawPayload SentimentResponse) : Except String SentimentFormattedRow := do
  let response ← safe_json_loads SentimentResponse.emptyObj raw error_handling
  let sentiment_score := response.sentimentScore.getD []
  return { prediction := response.sentiment.getD ""
           scoreCells := sentimentPredictions.map fun p =>
             match sentiment_score.lookup p with
             | none => (p, none)
             | some score => (p, some (pythonRound3 score)) }

/-- One key-phrase record of a parsed key-phrase response; both fields are
optional, mirroring `x.get("Text", "")` / `x.get("Score")`. -/
structure KeyPhrase where
  text : Option String
  score : Option ℚ
deriving DecidableEq, Repr

/-- A parsed key-phrase response: `response.get("KeyPhrases", [])`. -/
structure KeyPhraseResponse where
  keyPhrases : Option (List KeyPhrase)
deriving DecidableEq, Repr

/-- The empty JSON object as a key-phrase response. -/
def KeyPhraseResponse.emptyObj : KeyPhraseResponse := ⟨none⟩

/-- The descending-score order used by
`sorted(..., key=lambda x: x.get("Score"), reverse=True)` when every record
carries a score (`a` may come before `b` iff `b`'s score is at most `a`'s). -/
def keyPhraseDescRel (a b : KeyPhrase) : Prop := b.score.getD 0 ≤ a.score.getD 0

instance : DecidableRel keyPhraseDescRel := fun a b =>
  inferInstanceAs (Decidable (b.score.getD 0 ≤ a.score.getD 0))

instance : IsTotal KeyPhrase keyPhraseDescRel :=
  ⟨fun a b => le_total (b.score.getD 0) (a.score.getD 0)⟩

instance : IsTrans KeyPhrase keyPhraseDescRel :=
  ⟨fun _ _ _ hab hbc => le_trans hbc hab⟩

/-- Embedding of `sorted(response.get("KeyPhrases", []), key=lambda x: x.get("Score"),
reverse=True)`.  CPython semantics: with two or more records, every record
is compared at least once, so a record whose `Score` key is missing makes
the sort key `None` and any comparison against `None` raises `TypeError`;
with at most one record no comparison happens.  When no exception is
raised the result is the stable descending sort by score. -/
def sortKeyPhrases (l : List KeyPhrase) : Except String (List KeyPhrase) :=
  if 2 ≤ l.length ∧ l.any fun k => k.score.isNone then
    .error "TypeError: comparison not supported between NoneType and float"
  else .ok (l.insertionSort keyPhraseDescRel)

/-- Embedding of `KeyPhraseExtractionAPIFormatter.format_row`, lines 292-313 of
`api_formatting.py`: parse the raw response, sort the key phrases by
descending score, then for each `n` below `num_key_phrases` emit the pair
`(key_phrases[n].get("Text", ""), key_phrases[n].get("Score"))` when
`len(key_phrases) > n` and `("", None)` otherwise. -/
def KeyPhraseExtractionAPIFormatter.format_row (num_key_phrases : Nat)
    (error_handling : ErrorHandlingEnum)
    (raw : RawPayload KeyPhraseResponse) : Except String (List (String × Option ℚ)) := do
  let response ← safe_json_loads KeyPhraseResponse.emptyObj raw error_handling
  let key_phrases ← sortKeyPhrases (response.keyPhrases.getD [])
  return (List.range num_key_phrases).map fun n =>
    match key_phrases.get? n with
    | some kp => (kp.text.getD "", kp.score)
    | none => ("", none)

/-- Modelled from the spec: `generate_unique` (Column Name Allocator,
spec §4.1; `plugin_io_utils.py` is not in the snapshot).  Builds the
prefixed candidate `pfx ++ "_" ++ name`; if that name already exists
among `existing_names`, appends a numeric disambiguator (`_2`, `_3`, …)
until unique.  The bounded search always succeeds by pigeonhole (there
are more candidates than existing names); the fallback arm is
unreachable. -/
def generate_unique (name : String) (existing_names : List String)
    (pfx : String) : String :=
  let base := pfx ++ "_" ++ name
  if existing_names.contains base then
    match (List.range (existing_names.length + 1)).find? fun j =>
        !existing_names.contains (base ++ "_" ++ toString (j + 2)) with
    | some j => base ++ "_" ++ toString (j + 2)
    | none => base
  else base

/-- The fixed 4-tuple of dispatch column names (`ApiColumnNames` named
tuple of `plugin_io_utils.py`). -/
structure ApiColumnNames where
  response : String
  error_message : String
  error_type : String
  error_raw : String
deriving DecidableEq, Repr

/-- Modelled from the spec: `build_unique_column_names` (ApiColumnSet,
spec §3; `plugin_io_utils.py` is not in the snapshot): the four dispatch
columns `{response, error_message, error_type, error_raw}`, prefixed and
made unique against the pre-existing input column names via the Column
Name Allocator. -/
def build_unique_column_names (input_columns : List String)
    (pfx : String) : ApiColumnNames :=
  ⟨generate_unique "response" input_columns pfx,
   generate_unique "error_message" input_columns pfx,
   generate_unique "error_type" input_columns pfx,
   generate_unique "error_raw" input_columns pfx⟩

/-- The four dispatch column names as a list, in named-tuple field order. -/
def ApiColumnNames.toList (a : ApiColumnNames) : List String :=
  [a.response, a.error_message, a.error_type, a.error_raw]

/-- Python `str.lower()` restricted to ASCII, which covers every enum
value in this plugin (character-by-character lowercasing). -/
def asciiLower (s : String) : String := ⟨s.data.map Char.toLower⟩

/-- The candidate base name for a medical-entity category column
(`"entity_type_" + str(entity_enum.value).lower() + "_text"`). -/
def MedicalEntityTypeEnum.columnCandidate (t : MedicalEntityTypeEnum) : String :=
  "entity_type_" ++ asciiLower t.value ++ "_text"

/-- The candidate base name for a PHI category column
(`"entity_type_" + str(entity_enum.value).lower() + "_text"`). -/
def MedicalPHITypeEnum.columnCandidate (t : MedicalPHITypeEnum) : String :=
  "entity_type_" ++ asciiLower t.value ++ "_text"

/-- The key set of `MedicalEntityAPIFormatter.column_description_dict`
after `__init__`: the four dispatch columns (from the `GenericAPIFormatter`
base) followed by one entry per `MedicalEntityTypeEnum` member — the loop
in `_compute_column_description` (lines 157-164) runs over the whole
enumeration, ignoring the selected `entity_types`.  All allocator calls
are made against `input_df.keys()`. -/
def MedicalEntityAPIFormatter.descriptionKeys (input_columns : List String)
    (pfx : String) : List String :=
  (build_unique_column_names input_columns pfx).toList ++
  MedicalEntityTypeEnum.members.map fun t =>
    generate_unique t.columnCandidate input_columns pfx

/-- The key set of `MedicalPhiAPIFormatter.column_description_dict` after
`__init__`: the four dispatch columns followed by one entry per
`MedicalPHITypeEnum` member (`_compute_column_description`,
lines 101-108). -/
def MedicalPhiAPIFormatter.descriptionKeys (input_columns : List String)
    (pfx : String) : List String :=
  (build_unique_column_names input_columns pfx).toList ++
  MedicalPHITypeEnum.members.map fun t =>
    generate_unique t.columnCandidate input_columns pfx

/-- The column names added by a `format_row` category loop: each iteration
allocates its column against the *current* `row.keys()` and then adds the
column to the row, so later allocations see the earlier additions. -/
def formatRowColumnLoop (pfx : String) :
    List String → List String → List String
| [], _ => []
| c :: cs, keys =>
  let col := generate_unique c keys pfx
  col :: formatRowColumnLoop pfx cs (keys ++ [col])

/-- The columns a dispatch-plus-`MedicalEntityAPIFormatter.format_row`
pass introduces on a row (spec §3: "every column the core introduces,
whether dispatch or formatting columns"): the four dispatch columns, then
one column per *selected* entity type in enumeration order — the
`if entity_enum in self.entity_types` guard of `format_row` skips both
the allocation and the row mutation for unselected types.  At format
time `row.keys()` holds the input columns plus the dispatch columns. -/
def MedicalEntityAPIFormatter.producedColumns (input_columns : List String)
    (entity_types : List MedicalEntityTypeEnum) (pfx : String) : List String :=
  let api := (build_unique_column_names input_columns pfx).toList
  api ++ formatRowColumnLoop pfx
    ((MedicalEntityTypeEnum.members.filter fun t =>
      entity_types.contains t).map MedicalEntityTypeEnum.columnCandidate)
    (input_columns ++ api)

/-- The columns a dispatch-plus-`MedicalPhiAPIFormatter.format_row` pass
introduces on a row: the four dispatch columns, then one column per
`MedicalPHITypeEnum` member (no selection in the PHI formatter). -/
def MedicalPhiAPIFormatter.producedColumns (input_columns : List String)
    (pfx : String) : List String :=
  let api := (build_unique_column_names input_columns pfx).toList
  api ++ formatRowColumnLoop pfx
    (MedicalPHITypeEnum.members.map MedicalPHITypeEnum.columnCandidate)
    (input_columns ++ api)

/-- Python `str.strip()`: drop leading and trailing whitespace
(character-list model of the string). -/
def pyStrip (s : String) : String :=
  ⟨((s.data.dropWhile Char.isWhitespace).reverse.dropWhile
    Char.isWhitespace).reverse⟩

/-- A cell of the configured text column: a Python string, or a value of
any other type (`isinstance(text, str)` is false). -/
inductive CellText
| ofString (s : String)
| nonString
deriving DecidableEq, Repr

/-- The observable outcome of one invocation of a recipe call function:
whether the remote service was invoked, and the returned payload. -/
structure CallOutcome (α : Type) where
  remoteInvoked : Bool
  payload : RawPayload α
deriving DecidableEq, Repr

/-- Embedding of `call_api_medical_entity_recognition`, lines 66-71 of the
medical-entity-recognition recipe: if the text cell is not a string or is
blank after stripping, return `""` without calling the remote service;
otherwise return `json.dumps(client.detect_entities_v2(Text=text))`. -/
def call_api_medical_entity_recognition
    (detect_entities_v2 : String → EntitiesResponse)
    (text : CellText) : CallOutcome EntitiesResponse :=
  match text with
  | .nonString => ⟨false, .empty⟩
  | .ofString s =>
    if pyStrip s = "" then ⟨false, .empty⟩
    else ⟨true, .valid (detect_entities_v2 s)⟩

/-- Embedding of `call_api_medical_phi_extraction`, lines 53-58 of the PHI recipe:
same short-circuit, calling `client.detect_phi` otherwise. -/
def call_api_medical_phi_extraction
    (detect_phi : String → EntitiesResponse)
    (text : CellText) : CallOutcome EntitiesResponse :=
  match text with
  | .nonString => ⟨false, .empty⟩
  | .ofString s =>
    if pyStrip s = "" then ⟨false, .empty⟩
    else ⟨true, .valid (detect_phi s)⟩

/-- Per-row outcome of a dispatched call. -/
inductive CallResult (α : Type)
| success (payload : RawPayload α)
| failure (message errType errRaw : String)
deriving DecidableEq, Repr

/-- The dispatch columns of one row after `api_parallelizer`. -/
structure DispatchedRow (α : Type) where
  response : RawPayload α
  error_message : String
  error_type : String
  error_raw : String
deriving DecidableEq, Repr

/-- Modelled from the spec: the per-row outcome recording of
`api_parallelizer` (spec §4.4, not in the snapshot): success writes the
raw payload to the response column and leaves the error columns empty;
failure leaves the response empty and populates the error columns. -/
def recordRowOutcome {α : Type} : CallResult α → DispatchedRow α
| .success payload => ⟨payload, "", "", ""⟩
| .failure m t r => ⟨.empty, m, t, r⟩

/-- The `minimum_score` validation of both medical recipes
(entity-recognition recipe lines 40-42, PHI recipe lines 27-29):
`if minimum_score < 0 or minimum_score > 1: raise ValueError(...)`. -/
def validate_minimum_score (minimum_score : ℚ) : Except String Unit :=
  if minimum_score < 0 ∨ minimum_score > 1 then
    .error "Minimum confidence score must be between 0 and 1"
  else .ok ()

/-- The recipe scripts run top to bottom: the SETUP section (including the
`minimum_score` validation) precedes the RUN section, so the
`api_parallelizer` dispatch runs only when validation passed. -/
def recipeSetupThenDispatch {α : Type} (minimum_score : ℚ)
    (dispatch : Unit → α) : Except String α :=
  match validate_minimum_score minimum_score with
  | .error e => .error e
  | .ok _ => .ok (dispatch ())

/-- The error classes named by the retry decorators
(`@retry((RateLimitException, OSError), delay=api_quota_period, tries=5)`)
and the non-retryable remainder (e.g. the `API_EXCEPTIONS` of
`amazon_comprehend_medical_api_client.py`, or a malformed request). -/
inductive ApiErrorKind
| rateLimitException
| osError
| apiError (className : String)
deriving DecidableEq, Repr

/-- An error is retried iff it is an instance of the decorator's exception
tuple `(RateLimitException, OSError)`. -/
def ApiErrorKind.retryable : ApiErrorKind → Bool
| .rateLimitException => true
| .osError => true
| .apiError _ => false

/-- The observable trace of one wrapped invocation: the final outcome, the
number of attempts actually made, and the sleep durations between
consecutive attempts. -/
structure RetryTrace (α : Type) where
  result : Except ApiErrorKind α
  attempts : Nat
  delays : List ℚ
deriving Repr

/-- Modelled from the spec: the `retry` decorator semantics (spec §4.3;
the `retry` library is an external collaborator).  `f n` is the outcome
of attempt number `n`; `tries` counts total attempts; a retryable error
with at least one try left sleeps `delayQ` and re-invokes, a success or a
non-retryable error returns immediately, and the last try propagates its
error whatever its class. -/
def retryCall {α : Type} (f : Nat → Except ApiErrorKind α) (delayQ : ℚ)
    (i : Nat) : Nat → RetryTrace α
| 0 => ⟨.error (.apiError "ValueError: tries must be positive"), 0, []⟩
| 1 =>
  match f i with
  | .ok a => ⟨.ok a, 1, []⟩
  | .error e => ⟨.error e, 1, []⟩
| (n + 2) =>
  match f i with
  | .ok a => ⟨.ok a, 1, []⟩
  | .error e =>
    if e.retryable then
      let rest := retryCall f delayQ (i + 1) (n + 1)
      ⟨rest.result, rest.attempts + 1, delayQ :: rest.delays⟩
    else ⟨.error e, 1, []⟩

/-- The wrapped call function as decorated in both medical recipes:
`tries=5`, `delay=api_quota_period`. -/
def wrappedApiCall {α : Type} (f : Nat → Except ApiErrorKind α)
    (api_quota_period : ℚ) : RetryTrace α :=
  retryCall f api_quota_period 0 5

/-- Decidable equality for `Except`, used to evaluate formatter outcomes
on concrete inputs. -/
instance {ε α : Type} [DecidableEq ε] [DecidableEq α] :
    DecidableEq (Except ε α) := fun x y =>
  match x, y with
  | .ok a, .ok b =>
    if h : a = b then .isTrue (by rw [h]) else .isFalse (by simp [h])
  | .ok _, .error _ => .isFalse (by simp)
  | .error _, .ok _ => .isFalse (by simp)
  | .error e, .error e' =>
    if h : e = e' then .isTrue (by rw [h]) else .isFalse (by simp [h])

/-- Every sleep duration recorded by `retryCall` equals the configured
delay. -/
theorem retryCall_delays_all_eq {α : Type} (f : Nat → Except ApiErrorKind α)
    (p : ℚ) :
    ∀ fuel i d, d ∈ (retryCall f p i fuel).delays → d = p := by
  intro fuel
  induction fuel with
  | zero => intro i d hd; simp [retryCall] at hd
  | succ n ih =>
    intro i d hd
    match n with
    | 0 =>
      cases hfi : f i <;> simp [retryCall, hfi] at hd
    | Nat.succ m =>
      cases hfi : f i with
      | ok a => simp [retryCall, hfi] at hd
      | error e =>
        by_cases hr : e.retryable
        · simp [retryCall, hfi, hr] at hd
          rcases hd with rfl | hd
          · rfl
          · exact ih (i + 1) d hd
        · simp [retryCall, hfi, hr] at hd

/-- C9: a configured minimum confidence score outside the inclusive range
0.0 to 1.0 makes the recipe raise the configuration error before any
dispatch begins (the outcome is the error and is independent of the
dispatch function, which is never consulted); any value inside the
inclusive range, including exactly 0 and exactly 1, raises no error and
the dispatch runs. -/
theorem C9_minimum_score_range_validation {α : Type} (minimum_score : ℚ)
    (d d' : Unit → α) :
    ((minimum_score < 0 ∨ minimum_score > 1) →
      recipeSetupThenDispatch minimum_score d =
        Except.error "Minimum confidence score must be between 0 and 1" ∧
      recipeSetupThenDispatch minimum_score d =
        recipeSetupThenDispatch minimum_score d') ∧
    (0 ≤ minimum_score → minimum_score ≤ 1 →
      recipeSetupThenDispatch minimum_score d = Except.ok (d ())) := by
  constructor
  · intro h
    have hv : validate_minimum_score minimum_score =
        Except.error "Minimum confidence score must be between 0 and 1" := by
      unfold validate_minimum_score
      rw [if_pos h]
    constructor <;> simp [recipeSetupThenDispatch, hv]
  · intro h0 h1
    have hv : validate_minimum_score minimum_score = Except.ok () := by
      unfold validate_minimum_score
      rw [if_neg]
      push_neg
      exact ⟨h0, h1⟩
    simp [recipeSetupThenDispatch, hv]

/-- Witness for C9 at the concrete scores 2 (out of range) and 1 (the
inclusive upper bound). -/
theorem C9_minimum_score_range_validation_witness :
    recipeSetupThenDispatch 2 (fun _ => (42 : Nat)) =
      Except.error "Minimum confidence score must be between 0 and 1" ∧
    recipeSetupThenDispatch 1 (fun _ => (42 : Nat)) = Except.ok 42 :=
  ⟨((C9_minimum_score_range_validation 2 (fun _ => 42) (fun _ => 42)).1
      (Or.inr (by decide))).1,
   (C9_minimum_score_range_validation 1 (fun _ => 42) (fun _ => 42)).2
      (by decide) (by decide)⟩

/-- C8: with the decorator configuration of both medical recipes
(`tries=5`, `delay=api_quota_period`, retryable classes
`(RateLimitException, OSError)`), a wrapped call that keeps failing
retryably is attempted exactly 5 times and the 5th attempt's error then
propagates; a non-retryable error propagates immediately after a single
attempt; every delay between attempts equals the configured period; and a
success on attempt `k` (after retryable failures) stops the retrying at
`k + 1` total attempts with the successful result. -/
theorem C8_retry_policy {α : Type} (f : Nat → Except ApiErrorKind α)
    (api_quota_period : ℚ) :
    ((∀ n, n < 5 → ∃ e, f n = Except.error e ∧ e.retryable = true) →
      (wrappedApiCall f api_quota_period).attempts = 5 ∧
      ∃ e, f 4 = Except.error e ∧
        (wrappedApiCall f api_quota_period).result = Except.error e) ∧
    (∀ e, f 0 = Except.error e → e.retryable = false →
      (wrappedApiCall f api_quota_period).result = Except.error e ∧
      (wrappedApiCall f api_quota_period).attempts = 1) ∧
    (∀ d ∈ (wrappedApiCall f api_quota_period).delays, d = api_quota_period) ∧
    (∀ a k, k < 5 → f k = Except.ok a →
      (∀ j, j < k → ∃ e, f j = Except.error e ∧ e.retryable = true) →
      (wrappedApiCall f api_quota_period).result = Except.ok a ∧
      (wrappedApiCall f api_quota_period).attempts = k + 1) := by
  refine ⟨?_, ?_, ?_, ?_⟩
  · intro h
    obtain ⟨e0, hf0, hr0⟩ := h 0 (by omega)
    obtain ⟨e1, hf1, hr1⟩ := h 1 (by omega)
    obtain ⟨e2, hf2, hr2⟩ := h 2 (by omega)
    obtain ⟨e3, hf3, hr3⟩ := h 3 (by omega)
    obtain ⟨e4, hf4, hr4⟩ := h 4 (by omega)
    refine ⟨?_, e4, hf4, ?_⟩ <;>
      simp [wrappedApiCall, retryCall, hf0, hr0, hf1, hr1, hf2, hr2,
        hf3, hr3, hf4]
  · intro e hf0 hr0
    constructor <;> simp [wrappedApiCall, retryCall, hf0, hr0]
  · exact fun d hd => retryCall_delays_all_eq f api_quota_period 5 0 d hd
  · intro a k hk hfk hprev
    interval_cases k
    · constructor <;> simp [wrappedApiCall, retryCall, hfk]
    · obtain ⟨e0, hf0, hr0⟩ := hprev 0 (by omega)
      constructor <;> simp [wrappedApiCall, retryCall, hf0, hr0, hfk]
    · obtain ⟨e0, hf0, hr0⟩ := hprev 0 (by omega)
      obtain ⟨e1, hf1, hr1⟩ := hprev 1 (by omega)
      constructor <;> simp [wrappedApiCall, retryCall, hf0, hr0, hf1, hr1, hfk]
    · obtain ⟨e0, hf0, hr0⟩ := hprev 0 (by omega)
      obtain ⟨e1, hf1, hr1⟩ := hprev 1 (by omega)
      obtain ⟨e2, hf2, hr2⟩ := hprev 2 (by omega)
      constructor <;>
        simp [wrappedApiCall, retryCall, hf0, hr0, hf1, hr1, hf2, hr2, hfk]
    · obtain ⟨e0, hf0, hr0⟩ := hprev 0 (by omega)
      obtain ⟨e1, hf1, hr1⟩ := hprev 1 (by omega)
      obtain ⟨e2, hf2, hr2⟩ := hprev 2 (by omega)
      obtain ⟨e3, hf3, hr3⟩ := hprev 3 (by omega)
      constructor <;>
        simp [wrappedApiCall, retryCall, hf0, hr0, hf1, hr1, hf2, hr2,
          hf3, hr3, hfk]

/-- Witness for C8: an always-rate-limited call is attempted 5 times and
propagates; a client error propagates after one attempt; a call that
fails once with a transient OS error then succeeds takes 2 attempts. -/
theorem C8_retry_policy_witness :
    (wrappedApiCall (α := Nat) (fun _ => Except.error .rateLimitException)
      3).attempts = 5 ∧
    (wrappedApiCall (α := Nat) (fun _ => Except.error (.apiError "ClientError"))
      3).attempts = 1 ∧
    (wrappedApiCall (fun n => if n = 0 then Except.error .osError
      else Except.ok 7) 3).result = Except.ok 7 ∧
    (wrappedApiCall (fun n => if n = 0 then Except.error .osError
      else Except.ok 7) 3).attempts = 2 := by
  refine ⟨?_, ?_, ?_, ?_⟩
  · exact ((C8_retry_policy (fun _ => Except.error .rateLimitException) 3).1
      (fun n _ => ⟨.rateLimitException, rfl, rfl⟩)).1
  · exact ((C8_retry_policy (α := Nat)
      (fun _ => Except.error (.apiError "ClientError")) 3).2.1
      (.apiError "ClientError") rfl rfl).2
  · exact ((C8_retry_policy (fun n => if n = 0 then Except.error .osError
      else Except.ok 7) 3).2.2.2 7 1 (by decide) (by decide)
      (fun j hj => ⟨.osError, by simp [Nat.lt_one_iff.mp hj], rfl⟩)).1
  · exact ((C8_retry_policy (fun n => if n = 0 then Except.error .osError
      else Except.ok 7) 3).2.2.2 7 1 (by decide) (by decide)
      (fun j hj => ⟨.osError, by simp [Nat.lt_one_iff.mp hj], rfl⟩)).2

/-- The discarded-record count the specification intends for the PHI
formatter, following the spec's words: the entities below the threshold
whose `Type` belongs to the PHI formatter's own category enumeration
(`MedicalPHITypeEnum`), i.e. the records actually withheld from the PHI
output columns.  To be compared with the `discardedCount` the source
computes via `MedicalEntityTypeEnum` names. -/
def phiWithheldBelowThresholdCount (minimum_score : ℚ)
    (entities : List Entity) : Nat :=
  (entities.filter fun e =>
    decide (e.scoreD < minimum_score) &&
      (MedicalPHITypeEnum.members.map MedicalPHITypeEnum.name).contains
        e.typeD).length

/-- C1: evaluation at the failing input.  One entity of PHI type `NAME`
with score 0 under threshold 1: it is withheld from the PHI output column
(the `NAME` cell is empty), so the claim's observability count is 1, yet
the source's `discarded_entities` comprehension — which filters on the
`MedicalEntityTypeEnum` names, disjoint from the PHI names — reports 0. -/
theorem C1_phi_discarded_count_bug_eval :
    (MedicalPhiAPIFormatter.format_row 1 .LOG
        (.valid ⟨some [⟨some "NAME", none, some "John Doe", some 0⟩]⟩)).toOption.map
      PhiFormattedRow.discardedCount = some 0 ∧
    phiWithheldBelowThresholdCount 1
      [⟨some "NAME", none, some "John Doe", some 0⟩] = 1 ∧
    (MedicalPhiAPIFormatter.format_row 1 .LOG
        (.valid ⟨some [⟨some "NAME", none, some "John Doe", some 0⟩]⟩)).toOption.map
      (fun r => r.cells .NAME) = some (CellValue.str "") :=
  ⟨by decide, by decide, by decide⟩

/-- C10: with at least two key-phrase records of which at least one lacks
the `Score` field, `format_row` raises the sorting `TypeError` under
either error-handling policy; whereas when every record carries a score,
`format_row` succeeds and a record lacking the `Text` field is emitted as
the empty string. -/
theorem C10_keyphrase_missing_score_raises (num_key_phrases : Nat)
    (error_handling : ErrorHandlingEnum) (resp : KeyPhraseResponse) :
    (2 ≤ (resp.keyPhrases.getD []).length →
      (∃ kp ∈ resp.keyPhrases.getD [], kp.score = none) →
      KeyPhraseExtractionAPIFormatter.format_row num_key_phrases
        error_handling (.valid resp) =
        .error "TypeError: comparison not supported between NoneType and float") ∧
    ((∀ kp ∈ resp.keyPhrases.getD [], kp.score.isSome) →
      ∃ out, KeyPhraseExtractionAPIFormatter.format_row num_key_phrases
          error_handling (.valid resp) = .ok out ∧
        ∀ p ∈ out, p.1 = "" ∨
          ∃ kp ∈ resp.keyPhrases.getD [], kp.text = some p.1) := by
  constructor
  · intro h2 hnone
    have hsort : sortKeyPhrases (resp.keyPhrases.getD []) =
        .error "TypeError: comparison not supported between NoneType and float" := by
      unfold sortKeyPhrases
      rw [if_pos]
      refine ⟨h2, ?_⟩
      rw [List.any_eq_true]
      obtain ⟨kp, hmem, hsc⟩ := hnone
      exact ⟨kp, hmem, by simp [hsc]⟩
    simp [KeyPhraseExtractionAPIFormatter.format_row, safe_json_loads,
      Except.bind, Except.map, Bind.bind, Functor.map, hsort]
  · intro hall
    have hsort : sortKeyPhrases (resp.keyPhrases.getD []) =
        .ok ((resp.keyPhrases.getD []).insertionSort keyPhraseDescRel) := by
      unfold sortKeyPhrases
      rw [if_neg]
      rintro ⟨-, hany⟩
      rw [List.any_eq_true] at hany
      obtain ⟨kp, hmem, hsc⟩ := hany
      have := hall kp hmem
      simp [Option.isNone_iff_eq_none] at hsc
      rw [hsc] at this
      simp at this
    refine ⟨(List.range num_key_phrases).map fun n =>
        match ((resp.keyPhrases.getD []).insertionSort keyPhraseDescRel).get? n with
        | some kp => (kp.text.getD "", kp.score)
        | none => ("", none), by
      simp [KeyPhraseExtractionAPIFormatter.format_row, safe_json_loads,
        Except.bind, Except.map, Bind.bind, Functor.map, Pure.pure,
        Except.pure, hsort], ?_⟩
    intro p hp
    rw [List.mem_map] at hp
    obtain ⟨n, -, hfn⟩ := hp
    cases hget : ((resp.keyPhrases.getD []).insertionSort keyPhraseDescRel).get? n with
    | none =>
      rw [hget] at hfn
      left
      rw [← hfn]
    | some kp =>
      rw [hget] at hfn
      have hkp : kp ∈ resp.keyPhrases.getD [] := by
        have := List.get?_mem hget
        rwa [List.mem_insertionSort] at this
      cases htext : kp.text with
      | none =>
        left
        rw [← hfn]
        simp [htext]
      | some s =>
        right
        refine ⟨kp, hkp, ?_⟩
        rw [htext, ← hfn]
        simp [htext]

/-- Witness for C10: a 2-record response with one missing score raises
under the `FAIL` policy; the same records with scores present but one
missing text yield pairs with an empty text cell. -/
theorem C10_keyphrase_missing_score_raises_witness :
    KeyPhraseExtractionAPIFormatter.format_row 3 .FAIL
      (.valid ⟨some [⟨some "a", some 1⟩, ⟨some "b", none⟩]⟩) =
      .error "TypeError: comparison not supported between NoneType and float" ∧
    ∃ out, KeyPhraseExtractionAPIFormatter.format_row 3 .LOG
        (.valid ⟨some [⟨some "a", some 1⟩, ⟨none, some 2⟩]⟩) = .ok out ∧
      ∀ p ∈ out, p.1 = "" ∨
        ∃ kp ∈ [(⟨some "a", some 1⟩ : KeyPhrase), ⟨none, some 2⟩],
          kp.text = some p.1 :=
  ⟨(C10_keyphrase_missing_score_raises 3 .FAIL
      ⟨some [⟨some "a", some 1⟩, ⟨some "b", none⟩]⟩).1 (by decide)
      ⟨⟨some "b", none⟩, by decide, rfl⟩,
   (C10_keyphrase_missing_score_raises 3 .LOG
      ⟨some [⟨some "a", some 1⟩, ⟨none, some 2⟩]⟩).2 (by decide)⟩

/-- C4: a text cell that is not a string or is blank after stripping makes
both per-row call functions return the empty response without invoking
the remote service; the dispatched row then has an empty response column
and empty error columns, and formatting it (LOG policy, the constructors'
default) yields the empty string in every PHI category cell, a discarded
count of 0, and the empty string in every selected medical-entity
category cell. -/
theorem C4_blank_text_short_circuit
    (detect_entities_v2 detect_phi : String → EntitiesResponse)
    (text : CellText) (minimum_score : ℚ)
    (entity_types : List MedicalEntityTypeEnum)
    (h : text = .nonString ∨ ∃ s, text = .ofString s ∧ pyStrip s = "") :
    (call_api_medical_entity_recognition detect_entities_v2 text).remoteInvoked
      = false ∧
    (call_api_medical_phi_extraction detect_phi text).remoteInvoked = false ∧
    (call_api_medical_entity_recognition detect_entities_v2 text).payload
      = .empty ∧
    (call_api_medical_phi_extraction detect_phi text).payload = .empty ∧
    recordRowOutcome
        (CallResult.success (call_api_medical_phi_extraction detect_phi text).payload) =
      ({ response := .empty, error_message := "", error_type := "",
         error_raw := "" } : DispatchedRow EntitiesResponse) ∧
    (∀ t, (MedicalPhiAPIFormatter.format_row minimum_score .LOG
        (recordRowOutcome (CallResult.success
          (call_api_medical_phi_extraction detect_phi text).payload)).response).map
        (fun r => r.cells t) = .ok (.str "")) ∧
    (MedicalPhiAPIFormatter.format_row minimum_score .LOG
        (recordRowOutcome (CallResult.success
          (call_api_medical_phi_extraction detect_phi text).payload)).response).map
        PhiFormattedRow.discardedCount = .ok 0 ∧
    (∀ t, (MedicalEntityAPIFormatter.format_row entity_types minimum_score .LOG
        (recordRowOutcome (CallResult.success
          (call_api_medical_entity_recognition detect_entities_v2 text).payload)).response).map
        (fun r => r.cells t) =
      .ok (if entity_types.contains t then some (.str "") else none)) := by
  have hent : call_api_medical_entity_recognition detect_entities_v2 text =
      ⟨false, .empty⟩ := by
    rcases h with rfl | ⟨s, rfl, hs⟩
    · rfl
    · simp [call_api_medical_entity_recognition, hs]
  have hphi : call_api_medical_phi_extraction detect_phi text =
      ⟨false, .empty⟩ := by
    rcases h with rfl | ⟨s, rfl, hs⟩
    · rfl
    · simp [call_api_medical_phi_extraction, hs]
  refine ⟨by rw [hent], by rw [hphi], by rw [hent], by rw [hphi],
    by rw [hphi]; rfl, ?_, ?_, ?_⟩
  · intro t
    rw [hphi]
    simp [recordRowOutcome, MedicalPhiAPIFormatter.format_row,
      safe_json_loads, EntitiesResponse.emptyObj, Except.bind, Bind.bind,
      Except.map, Functor.map, Pure.pure, Except.pure]
  · rw [hphi]
    simp [recordRowOutcome, MedicalPhiAPIFormatter.format_row,
      safe_json_loads, EntitiesResponse.emptyObj, Except.bind, Bind.bind,
      Except.map, Functor.map, Pure.pure, Except.pure]
  · intro t
    rw [hent]
    simp [recordRowOutcome, MedicalEntityAPIFormatter.format_row,
      safe_json_loads, EntitiesResponse.emptyObj, Except.bind, Bind.bind,
      Except.map, Functor.map, Pure.pure, Except.pure]

/-- Witness for C4 at the blank text cell consisting of a space and a
tab. -/
theorem C4_blank_text_short_circuit_witness :
    (call_api_medical_entity_recognition (fun _ => ⟨some []⟩)
      (.ofString " \t")).remoteInvoked = false ∧
    (MedicalPhiAPIFormatter.format_row 0 .LOG
        (recordRowOutcome (CallResult.success
          (call_api_medical_phi_extraction (fun _ => ⟨some []⟩)
            (.ofString " \t")).payload)).response).map
        (fun r => r.cells .NAME) = .ok (.str "") :=
  ⟨(C4_blank_text_short_circuit (fun _ => ⟨some []⟩) (fun _ => ⟨some []⟩)
      (.ofString " \t") 0 [] (Or.inr ⟨" \t", rfl, by decide⟩)).1,
   (C4_blank_text_short_circuit (fun _ => ⟨some []⟩) (fun _ => ⟨some []⟩)
      (.ofString " \t") 0 [] (Or.inr ⟨" \t", rfl, by decide⟩)).2.2.2.2.2.1
      .NAME⟩

/-- The number of entity texts emitted in one cell (0 for the empty-string
normalization of an empty list). -/
def CellValue.emittedCount : CellValue → Nat
| .str _ => 0
| .strList l => l.length
| .optStrList l => l.length

/-- The emitted count of a normalized cell equals the length of the
underlying text list. -/
theorem CellValue.emittedCount_normalize (l : List String) :
    (if l = [] then CellValue.str "" else CellValue.strList l).emittedCount
      = l.length := by
  by_cases h : l = [] <;> simp [h, CellValue.emittedCount]

/-- Evaluation of `MedicalPhiAPIFormatter.format_row` on a parsed response, written out
as the structure it returns. -/
theorem phi_format_row_valid (minimum_score : ℚ)
    (error_handling : ErrorHandlingEnum) (resp : EntitiesResponse) :
    MedicalPhiAPIFormatter.format_row minimum_score error_handling
      (.valid resp) =
    .ok { cells := fun entity_enum =>
            let texts := ((resp.entities.getD []).filter fun e =>
              e.typeD == entity_enum.name &&
                decide (minimum_score ≤ e.scoreD)).map fun e => e.text.getD ""
            if texts = [] then .str "" else .strList texts
          discardedCount := ((resp.entities.getD []).filter fun e =>
            decide (e.scoreD < minimum_score) &&
              medicalEntityTypeNames.contains e.typeD).length } := rfl

/-- Evaluation of `MedicalEntityAPIFormatter.format_row` on a parsed response, written
out as the structure it returns. -/
theorem med_format_row_valid
    (entity_types : List MedicalEntityTypeEnum) (minimum_score : ℚ)
    (error_handling : ErrorHandlingEnum) (resp : EntitiesResponse) :
    MedicalEntityAPIFormatter.format_row entity_types minimum_score
      error_handling (.valid resp) =
    .ok { cells := fun entity_enum =>
            if entity_types.contains entity_enum then
              let texts := ((resp.entities.getD []).filter fun e =>
                e.categoryD == entity_enum.name &&
                  decide (minimum_score ≤ e.scoreD)).map fun e => e.text.getD ""
              some (if texts = [] then .str "" else .strList texts)
            else none
          discardedCount := ((resp.entities.getD []).filter fun e =>
            decide (e.scoreD < minimum_score) &&
              medicalEntityTypeNames.contains e.categoryD).length } := rfl

/-- The per-category emitted count of the PHI formatter equals the length
of the threshold filter over the parsed entities. -/
theorem phi_cell_count (minimum_score : ℚ)
    (error_handling : ErrorHandlingEnum) (resp : EntitiesResponse)
    (t : MedicalPHITypeEnum) :
    (MedicalPhiAPIFormatter.format_row minimum_score error_handling
      (.valid resp)).map (fun r => (r.cells t).emittedCount) =
    .ok ((resp.entities.getD []).filter fun e =>
      e.typeD == t.name && decide (minimum_score ≤ e.scoreD)).length := by
  rw [phi_format_row_valid]
  simp only [Except.map, CellValue.emittedCount_normalize, List.length_map]

/-- The per-category emitted count of the medical-entity formatter: the
length of the threshold filter for a selected category, 0 (no cell) for
an unselected one. -/
theorem med_cell_count
    (entity_types : List MedicalEntityTypeEnum) (minimum_score : ℚ)
    (error_handling : ErrorHandlingEnum) (resp : EntitiesResponse)
    (t : MedicalEntityTypeEnum) :
    (MedicalEntityAPIFormatter.format_row entity_types minimum_score
      error_handling (.valid resp)).map
      (fun r => ((r.cells t).map CellValue.emittedCount).getD 0) =
    .ok (if entity_types.contains t then
      ((resp.entities.getD []).filter fun e =>
        e.categoryD == t.name && decide (minimum_score ≤ e.scoreD)).length
      else 0) := by
  rw [med_format_row_valid]
  by_cases hsel : entity_types.contains t
  · simp only [Except.map, if_pos hsel, Option.map_some', Option.getD_some,
      CellValue.emittedCount_normalize, List.length_map]
  · simp only [Except.map, if_neg hsel, Option.map_none', Option.getD_none]

/-- C2: every text emitted in a PHI or medical-entity category column is
witnessed by an entity record of that category whose score is at least
the threshold — a record below the threshold contributes nothing — and
for a fixed parsed response, raising the threshold never increases the
emitted count of any category column. -/
theorem C2_minimum_score_filtering (resp : EntitiesResponse)
    (minimum_score minScoreHigher : ℚ) (error_handling : ErrorHandlingEnum)
    (entity_types : List MedicalEntityTypeEnum) :
    (∀ t l, (MedicalPhiAPIFormatter.format_row minimum_score error_handling
        (.valid resp)).map (fun r => r.cells t) = .ok (.strList l) →
      ∀ s ∈ l, ∃ e ∈ resp.entities.getD [],
        e.typeD = t.name ∧ minimum_score ≤ e.scoreD ∧ e.text.getD "" = s) ∧
    (minimum_score ≤ minScoreHigher →
      ∀ t n nHigher,
        (MedicalPhiAPIFormatter.format_row minimum_score error_handling
          (.valid resp)).map (fun r => (r.cells t).emittedCount) = .ok n →
        (MedicalPhiAPIFormatter.format_row minScoreHigher error_handling
          (.valid resp)).map (fun r => (r.cells t).emittedCount) = .ok nHigher →
        nHigher ≤ n) ∧
    (∀ t l, (MedicalEntityAPIFormatter.format_row entity_types minimum_score
        error_handling (.valid resp)).map (fun r => r.cells t) =
        .ok (some (.strList l)) →
      ∀ s ∈ l, ∃ e ∈ resp.entities.getD [],
        e.categoryD = t.name ∧ minimum_score ≤ e.scoreD ∧ e.text.getD "" = s) ∧
    (minimum_score ≤ minScoreHigher →
      ∀ t n nHigher,
        (MedicalEntityAPIFormatter.format_row entity_types minimum_score
          error_handling (.valid resp)).map
          (fun r => ((r.cells t).map CellValue.emittedCount).getD 0) = .ok n →
        (MedicalEntityAPIFormatter.format_row entity_types minScoreHigher
          error_handling (.valid resp)).map
          (fun r => ((r.cells t).map CellValue.emittedCount).getD 0) =
          .ok nHigher →
        nHigher ≤ n) := by
  refine ⟨?_, ?_, ?_, ?_⟩
  · intro t l hmap s hs
    rw [phi_format_row_valid] at hmap
    replace hmap := Except.ok.inj hmap
    simp only at hmap
    split at hmap
    · cases hmap
    · obtain rfl := (CellValue.strList.injEq _ _).mp hmap
      rw [List.mem_map] at hs
      obtain ⟨e, he, rfl⟩ := hs
      rw [List.mem_filter, Bool.and_eq_true, beq_iff_eq,
        decide_eq_true_eq] at he
      exact ⟨e, he.1, he.2.1, he.2.2, rfl⟩
  · intro hle t n nHigher h1 h2
    rw [phi_cell_count] at h1 h2
    obtain rfl := Except.ok.inj h1
    obtain rfl := Except.ok.inj h2
    refine List.Sublist.length_le (List.monotone_filter_right _ ?_)
    intro e hpe
    simp only [Bool.and_eq_true, decide_eq_true_eq] at hpe ⊢
    exact ⟨hpe.1, hle.trans hpe.2⟩
  · intro t l hmap s hs
    rw [med_format_row_valid] at hmap
    replace hmap := Except.ok.inj hmap
    simp only at hmap
    split at hmap
    · replace hmap := Option.some.inj hmap
      split at hmap
      · cases hmap
      · obtain rfl := (CellValue.strList.injEq _ _).mp hmap
        rw [List.mem_map] at hs
        obtain ⟨e, he, rfl⟩ := hs
        rw [List.mem_filter, Bool.and_eq_true, beq_iff_eq,
          decide_eq_true_eq] at he
        exact ⟨e, he.1, he.2.1, he.2.2, rfl⟩
    · cases hmap
  · intro hle t n nHigher h1 h2
    rw [med_cell_count] at h1 h2
    obtain rfl := Except.ok.inj h1
    obtain rfl := Except.ok.inj h2
    by_cases hsel : entity_types.contains t
    · rw [if_pos hsel, if_pos hsel]
      refine List.Sublist.length_le (List.monotone_filter_right _ ?_)
      intro e hpe
      simp only [Bool.and_eq_true, decide_eq_true_eq] at hpe ⊢
      exact ⟨hpe.1, hle.trans hpe.2⟩
    · rw [if_neg hsel, if_neg hsel]

/-- Witness for C2 (the spec scenario with integer-representable data):
one `NAME` entity with score 1, threshold 0 versus raised threshold 1. -/
theorem C2_minimum_score_filtering_witness :
    (∃ e ∈ [(⟨some "NAME", some "ANATOMY", some "flu", some 1⟩ : Entity)],
      e.typeD = MedicalPHITypeEnum.NAME.name ∧ (0 : ℚ) ≤ e.scoreD ∧
        e.text.getD "" = "flu") ∧
    (1 : Nat) ≤ 1 :=
  ⟨(C2_minimum_score_filtering
      ⟨some [⟨some "NAME", some "ANATOMY", some "flu", some 1⟩]⟩ 0 1 .LOG
      []).1 .NAME ["flu"] (by decide) "flu" (by decide),
   (C2_minimum_score_filtering
      ⟨some [⟨some "NAME", some "ANATOMY", some "flu", some 1⟩]⟩ 0 1 .LOG
      []).2.1 (by decide) .NAME 1 1 (by decide) (by decide)⟩

/-- Evaluation of `NamedEntityRecognitionAPIFormatter.format_row` on a parsed response,
written out as the structure it returns. -/
theorem ner_format_row_valid
    (entity_types : List EntityTypeEnum)
    (error_handling : ErrorHandlingEnum) (resp : EntitiesResponse) :
    NamedEntityRecognitionAPIFormatter.format_row entity_types
      error_handling (.valid resp) =
    .ok { cells := fun entity_enum =>
            if entity_types.contains entity_enum then
              let texts := ((resp.entities.getD []).filter fun e =>
                e.typeD == entity_enum.name).map fun e => e.text
              some (if texts = [] then .str "" else .optStrList texts)
            else none } := rfl

/-- C7: in each of the three entity-list formatters, a produced category
cell is either the empty string or a nonempty list of texts — an empty
matching list is normalized to `""`, never emitted as an empty list. -/
theorem C7_empty_list_normalized (resp : EntitiesResponse)
    (minimum_score : ℚ) (error_handling : ErrorHandlingEnum)
    (entity_types : List MedicalEntityTypeEnum)
    (ner_entity_types : List EntityTypeEnum) :
    (∀ t : MedicalPHITypeEnum,
      (MedicalPhiAPIFormatter.format_row minimum_score error_handling
        (.valid resp)).map (fun r => r.cells t) = .ok (.str "") ∨
      ∃ l, l ≠ [] ∧ (MedicalPhiAPIFormatter.format_row minimum_score
        error_handling (.valid resp)).map (fun r => r.cells t) =
        .ok (.strList l)) ∧
    (∀ t : MedicalEntityTypeEnum,
      (MedicalEntityAPIFormatter.format_row entity_types minimum_score
        error_handling (.valid resp)).map (fun r => r.cells t) = .ok none ∨
      (MedicalEntityAPIFormatter.format_row entity_types minimum_score
        error_handling (.valid resp)).map (fun r => r.cells t) =
        .ok (some (.str "")) ∨
      ∃ l, l ≠ [] ∧ (MedicalEntityAPIFormatter.format_row entity_types
        minimum_score error_handling (.valid resp)).map
        (fun r => r.cells t) = .ok (some (.strList l))) ∧
    (∀ t : EntityTypeEnum,
      (NamedEntityRecognitionAPIFormatter.format_row ner_entity_types
        error_handling (.valid resp)).map (fun r => r.cells t) = .ok none ∨
      (NamedEntityRecognitionAPIFormatter.format_row ner_entity_types
        error_handling (.valid resp)).map (fun r => r.cells t) =
        .ok (some (.str "")) ∨
      ∃ l, l ≠ [] ∧ (NamedEntityRecognitionAPIFormatter.format_row
        ner_entity_types error_handling (.valid resp)).map
        (fun r => r.cells t) = .ok (some (.optStrList l))) := by
  refine ⟨?_, ?_, ?_⟩
  · intro t
    rw [phi_format_row_valid]
    by_cases hl : ((resp.entities.getD []).filter fun e =>
        e.typeD == t.name && decide (minimum_score ≤ e.scoreD)).map
        (fun e => e.text.getD "") = []
    · left
      simp only [Except.map, if_pos hl]
    · right
      exact ⟨_, hl, by simp only [Except.map, if_neg hl]⟩
  · intro t
    rw [med_format_row_valid]
    by_cases hsel : entity_types.contains t
    · by_cases hl : ((resp.entities.getD []).filter fun e =>
          e.categoryD == t.name && decide (minimum_score ≤ e.scoreD)).map
          (fun e => e.text.getD "") = []
      · right; left
        simp only [Except.map, if_pos hsel, if_pos hl]
      · right; right
        exact ⟨_, hl, by simp only [Except.map, if_pos hsel, if_neg hl]⟩
    · left
      simp only [Except.map, if_neg hsel]
  · intro t
    rw [ner_format_row_valid]
    by_cases hsel : ner_entity_types.contains t
    · by_cases hl : ((resp.entities.getD []).filter fun e =>
          e.typeD == t.name).map (fun e => e.text) = []
      · right; left
        simp only [Except.map, if_pos hsel, if_pos hl]
      · right; right
        exact ⟨_, hl, by simp only [Except.map, if_pos hsel, if_neg hl]⟩
    · left
      simp only [Except.map, if_neg hsel]

/-- C5: when every key-phrase record carries a score, `format_row` emits
exactly `num_key_phrases` pairs; if the response holds at least that many
phrases the emitted pairs are in descending score order, and every pair
position beyond the response's phrase count is filled with `("", None)`. -/
theorem C5_keyphrase_top_n (num_key_phrases : Nat)
    (error_handling : ErrorHandlingEnum) (resp : KeyPhraseResponse)
    (hall : ∀ kp ∈ resp.keyPhrases.getD [], kp.score.isSome) :
    ∃ out, KeyPhraseExtractionAPIFormatter.format_row num_key_phrases
        error_handling (.valid resp) = .ok out ∧
      out.length = num_key_phrases ∧
      (num_key_phrases ≤ (resp.keyPhrases.getD []).length →
        ∀ (i j : Nat) (pi pj : String × Option ℚ), i < j →
          out[i]? = some pi → out[j]? = some pj →
          pj.2.getD 0 ≤ pi.2.getD 0) ∧
      (∀ j : Nat, (resp.keyPhrases.getD []).length ≤ j →
        j < num_key_phrases → out[j]? = some ("", none)) := by
  have hsort : sortKeyPhrases (resp.keyPhrases.getD []) =
      .ok ((resp.keyPhrases.getD []).insertionSort keyPhraseDescRel) := by
    unfold sortKeyPhrases
    rw [if_neg]
    rintro ⟨-, hany⟩
    rw [List.any_eq_true] at hany
    obtain ⟨kp, hmem, hsc⟩ := hany
    have := hall kp hmem
    simp [Option.isNone_iff_eq_none] at hsc
    rw [hsc] at this
    simp at this
  have hlen : ((resp.keyPhrases.getD []).insertionSort keyPhraseDescRel).length
      = (resp.keyPhrases.getD []).length := List.length_insertionSort _ _
  refine ⟨(List.range num_key_phrases).map fun n =>
      match ((resp.keyPhrases.getD []).insertionSort keyPhraseDescRel).get? n with
      | some kp => (kp.text.getD "", kp.score)
      | none => ("", none), by
    simp [KeyPhraseExtractionAPIFormatter.format_row, safe_json_loads,
      Except.bind, Bind.bind, Except.map, Functor.map, Pure.pure,
      Except.pure, hsort], ?_, ?_, ?_⟩
  · rw [List.length_map, List.length_range]
  · intro hN i j pi pj hij hi hj
    have hjN : j < num_key_phrases := by
      by_contra hge
      rw [List.getElem?_map,
        List.getElem?_eq_none (by rw [List.length_range]; omega)] at hj
      cases hj
    have hiN : i < num_key_phrases := by omega
    have hisl : i < ((resp.keyPhrases.getD []).insertionSort
        keyPhraseDescRel).length := by omega
    have hjsl : j < ((resp.keyPhrases.getD []).insertionSort
        keyPhraseDescRel).length := by omega
    rw [List.getElem?_map, List.getElem?_range hiN] at hi
    rw [List.getElem?_map, List.getElem?_range hjN] at hj
    simp only [Option.map_some'] at hi hj
    rw [List.get?_eq_getElem? , List.getElem?_eq_getElem hisl] at hi
    rw [List.get?_eq_getElem? , List.getElem?_eq_getElem hjsl] at hj
    obtain rfl := Option.some.inj hi
    obtain rfl := Option.some.inj hj
    have hrel := (List.sorted_insertionSort keyPhraseDescRel
      (resp.keyPhrases.getD [])).rel_get_of_lt
      (a := ⟨i, hisl⟩) (b := ⟨j, hjsl⟩) (by exact Fin.mk_lt_mk.mpr hij)
    exact hrel
  · intro j hjlen hjN
    rw [List.getElem?_map, List.getElem?_range hjN]
    simp only [Option.map_some']
    rw [List.get?_eq_getElem?, List.getElem?_eq_none (by omega)]

/-- Witness for C5: a 2-phrase response (scores 1 and 2) under a top-3
configuration. -/
theorem C5_keyphrase_top_n_witness :
    ∃ out, KeyPhraseExtractionAPIFormatter.format_row 3 .LOG
        (.valid ⟨some [⟨some "a", some 1⟩, ⟨some "b", some 2⟩]⟩) = .ok out ∧
      out.length = 3 ∧
      (3 ≤ ((⟨some [⟨some "a", some 1⟩, ⟨some "b", some 2⟩]⟩ :
          KeyPhraseResponse).keyPhrases.getD []).length →
        ∀ (i j : Nat) (pi pj : String × Option ℚ), i < j →
          out[i]? = some pi → out[j]? = some pj →
          pj.2.getD 0 ≤ pi.2.getD 0) ∧
      (∀ j : Nat, ((⟨some [⟨some "a", some 1⟩, ⟨some "b", some 2⟩]⟩ :
          KeyPhraseResponse).keyPhrases.getD []).length ≤ j → j < 3 →
        out[j]? = some ("", none)) :=
  C5_keyphrase_top_n 3 .LOG ⟨some [⟨some "a", some 1⟩, ⟨some "b", some 2⟩]⟩
    (by decide)

/-- Round-half-even lands within half a unit of its argument. -/
theorem roundHalfEven_abs_le (q : ℚ) : |(roundHalfEven q : ℚ) - q| ≤ 1/2 := by
  unfold roundHalfEven
  have h0 : (0 : ℚ) ≤ Int.fract q := Int.fract_nonneg q
  have h1 : Int.fract q < 1 := Int.fract_lt_one q
  have hfr : (⌊q⌋ : ℚ) = q - Int.fract q := by
    rw [Int.fract]
    ring
  split_ifs with hlt hgt heven
  · rw [abs_le]
    constructor <;> [linarith [hfr] ; linarith [hfr]]
  · rw [abs_le]
    push_cast
    constructor <;> [linarith [hfr] ; linarith [hfr]]
  · rw [abs_le]
    have : Int.fract q = 1/2 := le_antisymm (not_lt.mp hgt) (not_lt.mp hlt)
    constructor <;> [linarith [hfr] ; linarith [hfr]]
  · rw [abs_le]
    have : Int.fract q = 1/2 := le_antisymm (not_lt.mp hgt) (not_lt.mp hlt)
    push_cast
    constructor <;> [linarith [hfr] ; linarith [hfr]]

/-- Rounding to three decimal places lands within half a thousandth. -/
theorem pythonRound3_abs_le (s : ℚ) : |pythonRound3 s - s| ≤ 1/2000 := by
  unfold pythonRound3
  have h := roundHalfEven_abs_le (s * 1000)
  rw [abs_le] at h ⊢
  constructor <;> [linarith [h.1, h.2] ; linarith [h.1, h.2]]

/-- Evaluation of `SentimentAnalysisAPIFormatter.format_row` on a parsed response,
written out as the structure it returns. -/
theorem sentiment_format_row_valid
    (error_handling : ErrorHandlingEnum) (resp : SentimentResponse) :
    SentimentAnalysisAPIFormatter.format_row error_handling (.valid resp) =
    .ok { prediction := resp.sentiment.getD ""
          scoreCells := sentimentPredictions.map fun p =>
            match (resp.sentimentScore.getD []).lookup p with
            | none => (p, none)
            | some score => (p, some (pythonRound3 score)) } := rfl

/-- The value stored in the sentiment score cell keyed `p` is the
response's score at `p` rounded to 3 decimal places, or null when
absent. -/
theorem sentiment_scoreCells_lookup
    (error_handling : ErrorHandlingEnum) (resp : SentimentResponse)
    (p : String) (hp : p ∈ sentimentPredictions) :
    (SentimentAnalysisAPIFormatter.format_row error_handling
      (.valid resp)).map (fun r => r.scoreCells.lookup p) =
      .ok (some (((resp.sentimentScore.getD []).lookup p).map
        pythonRound3)) := by
  rw [sentiment_format_row_valid]
  have hmap : sentimentPredictions.map
      (fun q => match (resp.sentimentScore.getD []).lookup q with
        | none => (q, (none : Option ℚ))
        | some score => (q, some (pythonRound3 score))) =
    sentimentPredictions.map
      (fun q => (q, ((resp.sentimentScore.getD []).lookup q).map
        pythonRound3)) := by
    apply List.map_congr_left
    intro q _
    cases h : (resp.sentimentScore.getD []).lookup q <;> simp [h]
  simp only [Except.map, hmap]
  fin_cases hp <;> simp +decide [sentimentPredictions, List.lookup]

/-- C6: the sentiment formatter emits the prediction label read from the
response and exactly four score cells keyed `Positive`, `Neutral`,
`Negative`, `Mixed` in that order; a score absent from the response's
`SentimentScore` mapping yields null, and a present score `s` yields an
integer multiple of 1/1000 within half a thousandth of `s` (rounding to
3 decimal places). -/
theorem C6_sentiment_columns (error_handling : ErrorHandlingEnum)
    (resp : SentimentResponse) :
    (SentimentAnalysisAPIFormatter.format_row error_handling
      (.valid resp)).map SentimentFormattedRow.prediction =
      .ok (resp.sentiment.getD "") ∧
    (SentimentAnalysisAPIFormatter.format_row error_handling
      (.valid resp)).map (fun r => r.scoreCells.map Prod.fst) =
      .ok sentimentPredictions ∧
    (SentimentAnalysisAPIFormatter.format_row error_handling
      (.valid resp)).map (fun r => r.scoreCells.length) = .ok 4 ∧
    (∀ p ∈ sentimentPredictions,
      (resp.sentimentScore.getD []).lookup p = none →
      (SentimentAnalysisAPIFormatter.format_row error_handling
        (.valid resp)).map (fun r => r.scoreCells.lookup p) =
        .ok (some none)) ∧
    (∀ p ∈ sentimentPredictions, ∀ s,
      (resp.sentimentScore.getD []).lookup p = some s →
      ∃ k : ℤ, (SentimentAnalysisAPIFormatter.format_row error_handling
          (.valid resp)).map (fun r => r.scoreCells.lookup p) =
          .ok (some (some ((k : ℚ)/1000))) ∧
        |(k : ℚ)/1000 - s| ≤ 1/2000) := by
  refine ⟨?_, ?_, ?_, ?_, ?_⟩
  · rw [sentiment_format_row_valid]
    rfl
  · rw [sentiment_format_row_valid]
    cases hP : (resp.sentimentScore.getD []).lookup "Positive" <;>
    cases hN : (resp.sentimentScore.getD []).lookup "Neutral" <;>
    cases hG : (resp.sentimentScore.getD []).lookup "Negative" <;>
    cases hM : (resp.sentimentScore.getD []).lookup "Mixed" <;>
      simp [Except.map, sentimentPredictions, hP, hN, hG, hM]
  · rw [sentiment_format_row_valid]
    simp [Except.map, sentimentPredictions]
  · intro p hp hnone
    rw [sentiment_scoreCells_lookup error_handling
      resp p hp, hnone]
    rfl
  · intro p hp s hs
    refine ⟨roundHalfEven (s * 1000), ?_, ?_⟩
    · rw [sentiment_scoreCells_lookup error_handling
        resp p hp, hs]
      rfl
    · exact pythonRound3_abs_le s

/-- Witness for C6: a response with prediction `POSITIVE`, a present
`Positive` score of 1 and an absent `Mixed` score. -/
theorem C6_sentiment_columns_witness :
    (SentimentAnalysisAPIFormatter.format_row .LOG
      (.valid ⟨some "POSITIVE", some [("Positive", 1)]⟩)).map
      SentimentFormattedRow.prediction =
      .ok (((⟨some "POSITIVE", some [("Positive", 1)]⟩ :
        SentimentResponse)).sentiment.getD "") ∧
    (SentimentAnalysisAPIFormatter.format_row .LOG
      (.valid ⟨some "POSITIVE", some [("Positive", 1)]⟩)).map
      (fun r => r.scoreCells.lookup "Mixed") = .ok (some none) ∧
    ∃ k : ℤ, (SentimentAnalysisAPIFormatter.format_row .LOG
        (.valid ⟨some "POSITIVE", some [("Positive", 1)]⟩)).map
        (fun r => r.scoreCells.lookup "Positive") =
        .ok (some (some ((k : ℚ)/1000))) ∧
      |(k : ℚ)/1000 - 1| ≤ 1/2000 :=
  ⟨(C6_sentiment_columns .LOG ⟨some "POSITIVE", some [("Positive", 1)]⟩).1,
   (C6_sentiment_columns .LOG
      ⟨some "POSITIVE", some [("Positive", 1)]⟩).2.2.2.1 "Mixed"
      (by decide) (by decide),
   (C6_sentiment_columns .LOG
      ⟨some "POSITIVE", some [("Positive", 1)]⟩).2.2.2.2 "Positive"
      (by decide) 1 (by decide)⟩

/-- C3 counterexample: with no input columns and only `ANATOMY` selected,
the description map of `MedicalEntityAPIFormatter` has an entry for the
medical-condition column although neither dispatch nor `format_row`
produces that column. -/
theorem C3_unselected_category_description_counterexample :
    "medical_entity_api_entity_type_medical condition_text" ∈
      MedicalEntityAPIFormatter.descriptionKeys [] "medical_entity_api" ∧
    "medical_entity_api_entity_type_medical condition_text" ∉
      MedicalEntityAPIFormatter.producedColumns []
        [.ANATOMY] "medical_entity_api" := by
  constructor <;> decide

/-- When the prefixed candidate is not among the existing names, the
allocator returns it unchanged. -/
theorem generate_unique_of_not_mem (name : String)
    (existing_names : List String) (pfx : String)
    (h : (pfx ++ "_" ++ name) ∉ existing_names) :
    generate_unique name existing_names pfx = pfx ++ "_" ++ name := by
  unfold generate_unique
  rw [if_neg (by simpa using h)]

/-- When the prefixed candidates are pairwise distinct and all fresh for
the initial key set, the `format_row` column loop allocates exactly the
prefixed candidates. -/
theorem formatRowColumnLoop_of_fresh (pfx : String) :
    ∀ (cs keys : List String),
      (∀ c ∈ cs, (pfx ++ "_" ++ c) ∉ keys) →
      cs.Pairwise (fun a b => pfx ++ "_" ++ a ≠ pfx ++ "_" ++ b) →
      formatRowColumnLoop pfx cs keys = cs.map fun c => pfx ++ "_" ++ c := by
  intro cs
  induction cs with
  | nil => intro keys _ _; rfl
  | cons c cs ih =>
    intro keys hfresh hpw
    rw [List.pairwise_cons] at hpw
    unfold formatRowColumnLoop
    rw [generate_unique_of_not_mem _ _ _ (hfresh c (List.mem_cons_self c cs))]
    show (pfx ++ "_" ++ c) ::
      formatRowColumnLoop pfx cs (keys ++ [pfx ++ "_" ++ c]) = _
    rw [List.map_cons]
    congr 1
    apply ih
    · intro c' hc' hk
      rcases List.mem_append.mp hk with hk | hk
      · exact hfresh c' (List.mem_cons_of_mem c hc') hk
      · rw [List.mem_singleton] at hk
        exact hpw.1 c' hc' hk.symm
    · exact hpw.2

/-- C3 (amended): under collision-free input columns, every column the
dispatch-plus-formatter pass produces has exactly one description entry;
the PHI formatter's description keys coincide exactly with its produced
columns; but `MedicalEntityAPIFormatter`'s description map additionally
holds an entry for every unselected category — a column never produced
(the `_compute_column_description` loop ignores `entity_types`). -/
theorem C3_description_keys_amended (input_columns : List String)
    (entity_types : List MedicalEntityTypeEnum)
    (hMed : ∀ t ∈ MedicalEntityTypeEnum.members,
      ("medical_entity_api_" ++ t.columnCandidate) ∉ input_columns)
    (hMedApi : ∀ c ∈ (["response", "error_message", "error_type",
      "error_raw"] : List String),
      ("medical_entity_api_" ++ c) ∉ input_columns)
    (hPhi : ∀ t ∈ MedicalPHITypeEnum.members,
      ("medical_phi_api_" ++ t.columnCandidate) ∉ input_columns)
    (hPhiApi : ∀ c ∈ (["response", "error_message", "error_type",
      "error_raw"] : List String),
      ("medical_phi_api_" ++ c) ∉ input_columns) :
    (∀ c ∈ MedicalEntityAPIFormatter.producedColumns input_columns
        entity_types "medical_entity_api",
      (MedicalEntityAPIFormatter.descriptionKeys input_columns
        "medical_entity_api").count c = 1) ∧
    (∀ t ∈ MedicalEntityTypeEnum.members, t ∉ entity_types →
      ("medical_entity_api_" ++ t.columnCandidate) ∈
        MedicalEntityAPIFormatter.descriptionKeys input_columns
          "medical_entity_api" ∧
      ("medical_entity_api_" ++ t.columnCandidate) ∉
        MedicalEntityAPIFormatter.producedColumns input_columns
          entity_types "medical_entity_api") ∧
    MedicalPhiAPIFormatter.descriptionKeys input_columns "medical_phi_api" =
      MedicalPhiAPIFormatter.producedColumns input_columns
        "medical_phi_api" := by
  have hApiMed : build_unique_column_names input_columns
      "medical_entity_api" =
      ⟨"medical_entity_api_response", "medical_entity_api_error_message",
       "medical_entity_api_error_type", "medical_entity_api_error_raw"⟩ := by
    unfold build_unique_column_names
    rw [generate_unique_of_not_mem _ _ _ (hMedApi "response" (by decide)),
      generate_unique_of_not_mem _ _ _ (hMedApi "error_message" (by decide)),
      generate_unique_of_not_mem _ _ _ (hMedApi "error_type" (by decide)),
      generate_unique_of_not_mem _ _ _ (hMedApi "error_raw" (by decide))]
    decide
  have hApiPhi : build_unique_column_names input_columns "medical_phi_api" =
      ⟨"medical_phi_api_response", "medical_phi_api_error_message",
       "medical_phi_api_error_type", "medical_phi_api_error_raw"⟩ := by
    unfold build_unique_column_names
    rw [generate_unique_of_not_mem _ _ _ (hPhiApi "response" (by decide)),
      generate_unique_of_not_mem _ _ _ (hPhiApi "error_message" (by decide)),
      generate_unique_of_not_mem _ _ _ (hPhiApi "error_type" (by decide)),
      generate_unique_of_not_mem _ _ _ (hPhiApi "error_raw" (by decide))]
    decide
  have hDescMed : MedicalEntityAPIFormatter.descriptionKeys input_columns
      "medical_entity_api" =
      ["medical_entity_api_response", "medical_entity_api_error_message",
       "medical_entity_api_error_type", "medical_entity_api_error_raw"] ++
      MedicalEntityTypeEnum.members.map
        (fun t => "medical_entity_api_" ++ t.columnCandidate) := by
    unfold MedicalEntityAPIFormatter.descriptionKeys
    rw [hApiMed,
      List.map_congr_left fun t ht =>
        generate_unique_of_not_mem _ _ _ (hMed t ht)]
    rfl
  have hDescPhi : MedicalPhiAPIFormatter.descriptionKeys input_columns
      "medical_phi_api" =
      ["medical_phi_api_response", "medical_phi_api_error_message",
       "medical_phi_api_error_type", "medical_phi_api_error_raw"] ++
      MedicalPHITypeEnum.members.map
        (fun t => "medical_phi_api_" ++ t.columnCandidate) := by
    unfold MedicalPhiAPIFormatter.descriptionKeys
    rw [hApiPhi,
      List.map_congr_left fun t ht =>
        generate_unique_of_not_mem _ _ _ (hPhi t ht)]
    rfl
  have hMedApiNe : ∀ t ∈ MedicalEntityTypeEnum.members,
      ("medical_entity_api_" ++ t.columnCandidate) ∉
        (["medical_entity_api_response", "medical_entity_api_error_message",
          "medical_entity_api_error_type",
          "medical_entity_api_error_raw"] : List String) := by decide
  have hProdMed : MedicalEntityAPIFormatter.producedColumns input_columns
      entity_types "medical_entity_api" =
      ["medical_entity_api_response", "medical_entity_api_error_message",
       "medical_entity_api_error_type", "medical_entity_api_error_raw"] ++
      (MedicalEntityTypeEnum.members.filter
        (fun t => entity_types.contains t)).map
        (fun t => "medical_entity_api_" ++ t.columnCandidate) := by
    unfold MedicalEntityAPIFormatter.producedColumns
    rw [hApiMed]
    show ApiColumnNames.toList _ ++ _ = _
    rw [formatRowColumnLoop_of_fresh]
    · rw [List.map_map]
      rfl
    · intro c hc hk
      rw [List.mem_map] at hc
      obtain ⟨t, htf, rfl⟩ := hc
      have htm : t ∈ MedicalEntityTypeEnum.members :=
        List.mem_of_mem_filter htf
      rcases List.mem_append.mp hk with hk | hk
      · exact hMed t htm hk
      · exact hMedApiNe t htm hk
    · have hpw : (MedicalEntityTypeEnum.members.map
          MedicalEntityTypeEnum.columnCandidate).Pairwise
          (fun a b => ("medical_entity_api_" ++ a) ≠
            ("medical_entity_api_" ++ b)) := by decide
      exact List.Pairwise.sublist
        (List.Sublist.map _ (List.filter_sublist _)) hpw
  have hProdPhi : MedicalPhiAPIFormatter.producedColumns input_columns
      "medical_phi_api" =
      ["medical_phi_api_response", "medical_phi_api_error_message",
       "medical_phi_api_error_type", "medical_phi_api_error_raw"] ++
      MedicalPHITypeEnum.members.map
        (fun t => "medical_phi_api_" ++ t.columnCandidate) := by
    unfold MedicalPhiAPIFormatter.producedColumns
    rw [hApiPhi]
    show ApiColumnNames.toList _ ++ _ = _
    rw [formatRowColumnLoop_of_fresh]
    · rw [List.map_map]
      rfl
    · intro c hc hk
      rw [List.mem_map] at hc
      obtain ⟨t, htm, rfl⟩ := hc
      rcases List.mem_append.mp hk with hk | hk
      · exact hPhi t htm hk
      · have hPhiApiNe : ∀ t ∈ MedicalPHITypeEnum.members,
            ("medical_phi_api_" ++ t.columnCandidate) ∉
              (["medical_phi_api_response", "medical_phi_api_error_message",
                "medical_phi_api_error_type",
                "medical_phi_api_error_raw"] : List String) := by decide
        exact hPhiApiNe t htm hk
    · have hpw : (MedicalPHITypeEnum.members.map
          MedicalPHITypeEnum.columnCandidate).Pairwise
          (fun a b => ("medical_phi_api_" ++ a) ≠
            ("medical_phi_api_" ++ b)) := by decide
      exact hpw
  refine ⟨?_, ?_, ?_⟩
  · intro c hc
    rw [hDescMed]
    rw [hProdMed] at hc
    have hnd : (["medical_entity_api_response",
        "medical_entity_api_error_message", "medical_entity_api_error_type",
        "medical_entity_api_error_raw"] ++
      MedicalEntityTypeEnum.members.map
        (fun t => "medical_entity_api_" ++ t.columnCandidate)).Nodup := by
      decide
    refine List.count_eq_one_of_mem hnd ?_
    rcases List.mem_append.mp hc with h4 | hfil
    · exact List.mem_append_left _ h4
    · rw [List.mem_map] at hfil
      obtain ⟨t, htf, rfl⟩ := hfil
      exact List.mem_append_right _
        (List.mem_map_of_mem _ (List.mem_of_mem_filter htf))
  · intro t ht htnot
    constructor
    · rw [hDescMed]
      exact List.mem_append_right _ (List.mem_map_of_mem _ ht)
    · rw [hProdMed]
      intro hk
      rcases List.mem_append.mp hk with h4 | hfil
      · exact hMedApiNe t ht h4
      · rw [List.mem_map] at hfil
        obtain ⟨t', ht'f, heq⟩ := hfil
        have hinj : ∀ a ∈ MedicalEntityTypeEnum.members,
            ∀ b ∈ MedicalEntityTypeEnum.members,
            ("medical_entity_api_" ++ a.columnCandidate) =
              ("medical_entity_api_" ++ b.columnCandidate) → a = b := by
          decide
        obtain rfl := hinj t' (List.mem_of_mem_filter ht'f) t ht heq
        have hcont := List.of_mem_filter ht'f
        exact htnot (by simpa using hcont)
  · rw [hDescPhi, hProdPhi]

/-- Witness for C3 (amended) with no input columns and only `ANATOMY`
selected: the response column's description entry is unique, the
medical-condition column has a description entry yet is not produced,
and the PHI description keys equal the PHI produced columns. -/
theorem C3_description_keys_amended_witness :
    (MedicalEntityAPIFormatter.descriptionKeys [] "medical_entity_api").count
      "medical_entity_api_response" = 1 ∧
    (("medical_entity_api_" ++
        MedicalEntityTypeEnum.MEDICAL_CONDITION.columnCandidate) ∈
      MedicalEntityAPIFormatter.descriptionKeys [] "medical_entity_api" ∧
     ("medical_entity_api_" ++
        MedicalEntityTypeEnum.MEDICAL_CONDITION.columnCandidate) ∉
      MedicalEntityAPIFormatter.producedColumns []
        [.ANATOMY] "medical_entity_api") ∧
    MedicalPhiAPIFormatter.descriptionKeys [] "medical_phi_api" =
      MedicalPhiAPIFormatter.producedColumns [] "medical_phi_api" :=
  ⟨(C3_description_keys_amended [] [.ANATOMY] (by decide) (by decide)
      (by decide) (by decide)).1 "medical_entity_api_response" (by decide),
   (C3_description_keys_amended [] [.ANATOMY] (by decide) (by decide)
      (by decide) (by decide)).2.1 .MEDICAL_CONDITION (by decide)
      (by decide),
   (C3_description_keys_amended [] [.ANATOMY] (by decide) (by decide)
      (by decide) (by decide)).2.2⟩
